import Mathlib

/-!
Verification of the Income-Tax Regime Comparison Engine of the TaxWise
repository (the RegimeSimulator component, function calculateTax and the
regimeData comparator).  Monetary amounts are JavaScript numbers in the
source; they are modelled exactly as rationals, with Math.round modelled
by Mathlib's round (both compute the floor of x + 1/2).  The source's
Number.POSITIVE_INFINITY upper bound of the last slab is modelled as an
Option that is none.  JavaScript division by zero yields a non-finite
value (NaN here, since the numerator is produced by the same pipeline);
the effectiveRate field is therefore an Option that is none exactly when
income = 0.  The slab label strings of the source are pure renderings of
the slab bounds and rate; the breakdown entries here carry those numbers
directly.
-/

/-- Input record of the simulator (the React state "scenario"). -/
structure TaxScenario where
  income : ℚ
  hra : ℚ
  section80C : ℚ
  section80D : ℚ
  homeLoanInterest : ℚ
  otherDeductions : ℚ
deriving DecidableEq

/-- The deductionBreakdown object of calculateTax. -/
structure DeductionBreakdown where
  section80C : ℚ
  section80D : ℚ
  hra : ℚ
  standardDeduction : ℚ
  other : ℚ
deriving DecidableEq

/-- One slab of a regime's slab table; upper bound none means unbounded
(Number.POSITIVE_INFINITY in the source). -/
structure Slab where
  lo : ℚ
  hi : Option ℚ
  rate : ℚ
deriving DecidableEq

/-- One entry pushed onto taxBreakdown: the slab (whose label string in the
source is rendered from these bounds and rate) and the tax in that slab. -/
structure SlabContribution where
  lo : ℚ
  hi : Option ℚ
  rate : ℚ
  tax : ℚ
deriving DecidableEq

/-- New regime slabs (FY 2024-25) as listed in calculateTax. -/
def newSlabs : List Slab :=
  [⟨0, some 300000, 0⟩,
   ⟨300000, some 700000, 5/100⟩,
   ⟨700000, some 1000000, 10/100⟩,
   ⟨1000000, some 1200000, 15/100⟩,
   ⟨1200000, some 1500000, 20/100⟩,
   ⟨1500000, none, 30/100⟩]

/-- Old regime slabs as listed in calculateTax. -/
def oldSlabs : List Slab :=
  [⟨0, some 250000, 0⟩,
   ⟨250000, some 500000, 5/100⟩,
   ⟨500000, some 1000000, 20/100⟩,
   ⟨1000000, none, 30/100⟩]

/-- Math.min(taxableIncome - slab.min, slab.max - slab.min) * slab.rate,
with the unbounded case giving taxableIncome - slab.min. -/
def slabTax (t : ℚ) (s : Slab) : ℚ :=
  match s.hi with
  | none => (t - s.lo) * s.rate
  | some m => min (t - s.lo) (m - s.lo) * s.rate

/-- One iteration of the for-loop over slabs: the accumulator carries the
running tax and the taxBreakdown list built so far. -/
def slabStep (t : ℚ) (acc : ℚ × List SlabContribution) (s : Slab) :
    ℚ × List SlabContribution :=
  if s.lo < t then
    let amt := slabTax t s
    (acc.1 + amt,
      if 0 < amt then acc.2 ++ [⟨s.lo, s.hi, s.rate, amt⟩] else acc.2)
  else acc

/-- The whole for-loop: tax starts at 0 and taxBreakdown empty. -/
def runSlabs (t : ℚ) (slabs : List Slab) : ℚ × List SlabContribution :=
  slabs.foldl (slabStep t) (0, [])

/-- The deductionBreakdown after the branch on isNewRegime: the new regime
sets only standardDeduction = 75000, the old regime caps section80C at
150000, section80D at 25000, hra at half the income, sets
standardDeduction = 50000 and other = homeLoanInterest + otherDeductions. -/
def resolveDeductions (income : ℚ) (deductions : TaxScenario)
    (isNewRegime : Bool) : DeductionBreakdown :=
  if isNewRegime then
    ⟨0, 0, 0, 75000, 0⟩
  else
    ⟨min deductions.section80C 150000,
     min deductions.section80D 25000,
     min deductions.hra (income * (5/10)),
     50000,
     deductions.homeLoanInterest + deductions.otherDeductions⟩

/-- Object.values(deductionBreakdown).reduce((sum, val) => sum + val, 0). -/
def totalDeductions (b : DeductionBreakdown) : ℚ :=
  b.section80C + b.section80D + b.hra + b.standardDeduction + b.other

/-- The taxableIncome value after the deduction branch of calculateTax
(income - 75000 in the new regime, income - totalDeductions in the old);
the source never floors it at zero. -/
def taxableOf (income : ℚ) (deductions : TaxScenario) (isNewRegime : Bool) : ℚ :=
  income - totalDeductions (resolveDeductions income deductions isNewRegime)

/-- The slab table selected by the branch on isNewRegime. -/
def slabTable (isNewRegime : Bool) : List Slab :=
  if isNewRegime then newSlabs else oldSlabs

/-- The unrounded tax + cess value (totalTax in the source): the slab loop
total plus a flat 4 percent cess on it. -/
def totalTaxOf (income : ℚ) (deductions : TaxScenario) (isNewRegime : Bool) : ℚ :=
  (runSlabs (taxableOf income deductions isNewRegime) (slabTable isNewRegime)).1
    + (runSlabs (taxableOf income deductions isNewRegime) (slabTable isNewRegime)).1 * (4/100)

/-- The record returned by calculateTax. -/
structure RegimeResult where
  taxLiability : ℤ
  effectiveRate : Option ℚ
  deductions : DeductionBreakdown
  taxBreakdown : List SlabContribution
  taxableIncome : ℤ
deriving DecidableEq

/-- calculateTax(income, deductions, isNewRegime) of the source.  The
effectiveRate of the source is (totalTax / income) * 100; with income = 0
this JavaScript division is non-finite (NaN), modelled as none. -/
def calculateTax (income : ℚ) (deductions : TaxScenario)
    (isNewRegime : Bool) : RegimeResult :=
  let db := resolveDeductions income deductions isNewRegime
  let taxableIncome := income - totalDeductions db
  let res := runSlabs taxableIncome (slabTable isNewRegime)
  let tax := res.1
  let cess := tax * (4/100)
  let totalTax := tax + cess
  { taxLiability := round totalTax
    effectiveRate := if income = 0 then none else some (totalTax / income * 100)
    deductions := db
    taxBreakdown := res.2
    taxableIncome := round taxableIncome }

/-- One element of the regimeData array. -/
structure RegimeComparison where
  regime : String
  taxLiability : ℤ
  effectiveRate : Option ℚ
  savings : ℤ
  recommended : Bool
  deductions : DeductionBreakdown
  taxBreakdown : List SlabContribution
deriving DecidableEq

/-- The regimeData array built from the two calculateTax calls: the old
entry is recommended iff its liability is strictly below the new one, and
conversely; savings on the new entry is the clamped difference. -/
def regimeData (s : TaxScenario) : List RegimeComparison :=
  let oldRegimeCalc := calculateTax s.income s false
  let newRegimeCalc := calculateTax s.income s true
  [{ regime := "Old Tax Regime"
     taxLiability := oldRegimeCalc.taxLiability
     effectiveRate := oldRegimeCalc.effectiveRate
     savings := 0
     recommended := decide (oldRegimeCalc.taxLiability < newRegimeCalc.taxLiability)
     deductions := oldRegimeCalc.deductions
     taxBreakdown := oldRegimeCalc.taxBreakdown },
   { regime := "New Tax Regime"
     taxLiability := newRegimeCalc.taxLiability
     effectiveRate := newRegimeCalc.effectiveRate
     savings := max 0 (oldRegimeCalc.taxLiability - newRegimeCalc.taxLiability)
     recommended := decide (newRegimeCalc.taxLiability < oldRegimeCalc.taxLiability)
     deductions := newRegimeCalc.deductions
     taxBreakdown := newRegimeCalc.taxBreakdown }]

/-- regimeData.find((r) => r.recommended). -/
def recommendedRegime (s : TaxScenario) : Option RegimeComparison :=
  (regimeData s).find? (·.recommended)

/-- Math.abs(oldRegimeCalc.taxLiability - newRegimeCalc.taxLiability). -/
def totalSavings (s : TaxScenario) : ℤ :=
  |(calculateTax s.income s false).taxLiability
    - (calculateTax s.income s true).taxLiability|

/-- The default scenario of the component state. -/
def defaultScenario : TaxScenario :=
  ⟨1200000, 120000, 150000, 25000, 200000, 50000⟩

/-- Wellformedness of a slab as configured in the source tables: the rate is
non-negative, the lower bound is non-negative, and the upper bound (when
present) is at least the lower bound. -/
def SlabOK (s : Slab) : Prop :=
  0 ≤ s.rate ∧ 0 ≤ s.lo ∧ ∀ m ∈ s.hi, s.lo ≤ m

lemma oldSlabs_ok : ∀ s ∈ oldSlabs, SlabOK s := by
  simp only [oldSlabs, List.mem_cons, List.not_mem_nil, or_false]
  rintro s (rfl | rfl | rfl | rfl) <;>
    refine ⟨by norm_num, by norm_num, ?_⟩ <;>
    intro m hm <;> rw [Option.mem_def] at hm <;>
    first
      | exact Option.noConfusion hm
      | (rw [← Option.some_inj.mp hm]; norm_num)

lemma newSlabs_ok : ∀ s ∈ newSlabs, SlabOK s := by
  simp only [newSlabs, List.mem_cons, List.not_mem_nil, or_false]
  rintro s (rfl | rfl | rfl | rfl | rfl | rfl) <;>
    refine ⟨by norm_num, by norm_num, ?_⟩ <;>
    intro m hm <;> rw [Option.mem_def] at hm <;>
    first
      | exact Option.noConfusion hm
      | (rw [← Option.some_inj.mp hm]; norm_num)

lemma slabTable_ok (b : Bool) : ∀ s ∈ slabTable b, SlabOK s := by
  cases b
  · simpa [slabTable] using oldSlabs_ok
  · simpa [slabTable] using newSlabs_ok

/-- Contribution of one slab to the running total: the tax in that slab when
the guard of the loop fires, 0 otherwise. -/
def contrib (t : ℚ) (s : Slab) : ℚ :=
  if s.lo < t then slabTax t s else 0

lemma slabTax_nonneg {s : Slab} (hs : SlabOK s) {t : ℚ} (h : s.lo ≤ t) :
    0 ≤ slabTax t s := by
  obtain ⟨hr, -, hm⟩ := hs
  unfold slabTax
  cases hhi : s.hi with
  | none => exact mul_nonneg (by linarith) hr
  | some m =>
    have hlm : s.lo ≤ m := hm m (by rw [hhi]; rfl)
    exact mul_nonneg (le_min (by linarith) (by linarith)) hr

lemma slabTax_mono {s : Slab} (hs : SlabOK s) {t₁ t₂ : ℚ} (h : t₁ ≤ t₂) :
    slabTax t₁ s ≤ slabTax t₂ s := by
  obtain ⟨hr, -, -⟩ := hs
  unfold slabTax
  cases s.hi with
  | none => exact mul_le_mul_of_nonneg_right (by linarith) hr
  | some m =>
    exact mul_le_mul_of_nonneg_right (min_le_min (by linarith) le_rfl) hr

lemma contrib_nonneg {s : Slab} (hs : SlabOK s) (t : ℚ) : 0 ≤ contrib t s := by
  unfold contrib
  split
  · exact slabTax_nonneg hs (le_of_lt (by assumption))
  · exact le_rfl

lemma contrib_mono {s : Slab} (hs : SlabOK s) {t₁ t₂ : ℚ} (h : t₁ ≤ t₂) :
    contrib t₁ s ≤ contrib t₂ s := by
  unfold contrib
  by_cases h₁ : s.lo < t₁
  · rw [if_pos h₁, if_pos (lt_of_lt_of_le h₁ h)]
    exact slabTax_mono hs h
  · rw [if_neg h₁]
    split
    · exact slabTax_nonneg hs (le_of_lt (by assumption))
    · exact le_rfl

lemma foldl_slabStep_fst (t : ℚ) (slabs : List Slab)
    (acc : ℚ × List SlabContribution) :
    (slabs.foldl (slabStep t) acc).1 = acc.1 + (slabs.map (contrib t)).sum := by
  induction slabs generalizing acc with
  | nil => simp
  | cons s rest ih =>
    simp only [List.foldl_cons, List.map_cons, List.sum_cons]
    rw [ih]
    unfold slabStep contrib
    by_cases h : s.lo < t <;> simp only [if_pos, if_neg, h, if_true, if_false] <;> ring

lemma runSlabs_fst (t : ℚ) (slabs : List Slab) :
    (runSlabs t slabs).1 = (slabs.map (contrib t)).sum := by
  simpa [runSlabs] using foldl_slabStep_fst t slabs (0, [])

lemma runSlabs_fst_nonneg {slabs : List Slab} (hs : ∀ s ∈ slabs, SlabOK s)
    (t : ℚ) : 0 ≤ (runSlabs t slabs).1 := by
  rw [runSlabs_fst]
  exact List.sum_nonneg (by
    intro x hx
    obtain ⟨s, hm, rfl⟩ := List.mem_map.mp hx
    exact contrib_nonneg (hs s hm) t)

lemma runSlabs_fst_mono {slabs : List Slab} (hs : ∀ s ∈ slabs, SlabOK s)
    {t₁ t₂ : ℚ} (h : t₁ ≤ t₂) :
    (runSlabs t₁ slabs).1 ≤ (runSlabs t₂ slabs).1 := by
  rw [runSlabs_fst, runSlabs_fst]
  exact List.sum_le_sum fun s hm => contrib_mono (hs s hm) h

lemma round_mono_q {a b : ℚ} (h : a ≤ b) : round a ≤ round b := by
  rw [round_eq, round_eq]
  exact Int.floor_mono (by linarith)

lemma foldl_slabStep_snd_sum (t : ℚ) (slabs : List Slab)
    (hs : ∀ s ∈ slabs, SlabOK s) (acc : ℚ × List SlabContribution)
    (hacc : (acc.2.map SlabContribution.tax).sum = acc.1) :
    (((slabs.foldl (slabStep t) acc).2).map SlabContribution.tax).sum
      = (slabs.foldl (slabStep t) acc).1 := by
  induction slabs generalizing acc with
  | nil => simpa using hacc
  | cons s rest ih =>
    simp only [List.foldl_cons]
    refine ih (fun s' hs' => hs s' (List.mem_cons_of_mem _ hs')) _ ?_
    unfold slabStep
    by_cases h : s.lo < t
    · rw [if_pos h]
      by_cases h₂ : 0 < slabTax t s
      · simp [h₂, hacc]
      · have hz : slabTax t s = 0 :=
          le_antisymm (not_lt.mp h₂)
            (slabTax_nonneg (hs s (List.mem_cons_self s rest)) (le_of_lt h))
        simp [h₂, hacc, hz]
    · rw [if_neg h]
      exact hacc

lemma runSlabs_snd_sum {slabs : List Slab} (hs : ∀ s ∈ slabs, SlabOK s)
    (t : ℚ) :
    (((runSlabs t slabs).2).map SlabContribution.tax).sum
      = (runSlabs t slabs).1 := by
  simpa [runSlabs] using foldl_slabStep_snd_sum t slabs hs (0, []) (by simp)

/-- Modelled from the spec words of section 4.1: the amount taxed in a slab
is max(0, min(taxableIncome, upperBound) - lowerBound) and the direct
integration of the schedule is the sum of those amounts times the rates. -/
def slabIntegral (t : ℚ) (slabs : List Slab) : ℚ :=
  (slabs.map (fun s => s.rate * max 0 ((s.hi.elim t (min t)) - s.lo))).sum

lemma contrib_eq_integral_term {s : Slab} (hs : SlabOK s) (t : ℚ) :
    contrib t s = s.rate * max 0 ((s.hi.elim t (min t)) - s.lo) := by
  obtain ⟨-, -, hm⟩ := hs
  unfold contrib slabTax
  cases hhi : s.hi with
  | none =>
    by_cases h : s.lo < t
    · rw [if_pos h, Option.elim_none, max_eq_right (by linarith), mul_comm]
    · rw [if_neg h, Option.elim_none, max_eq_left (by linarith), mul_zero]
  | some m =>
    have hlm : s.lo ≤ m := hm m (by rw [hhi]; rfl)
    by_cases h : s.lo < t
    · rw [if_pos h, Option.elim_some]
      have h₁ : min t m - s.lo = min (t - s.lo) (m - s.lo) :=
        (min_sub_sub_right t m s.lo).symm
      rw [h₁, max_eq_right (le_min (by linarith) (by linarith))]
      exact mul_comm _ _
    · rw [if_neg h, Option.elim_some]
      have h₂ : min t m - s.lo ≤ 0 := by
        have : min t m ≤ t := min_le_left t m
        linarith [not_lt.mp h]
      rw [max_eq_left h₂, mul_zero]

lemma runSlabs_fst_eq_integral {slabs : List Slab} (hs : ∀ s ∈ slabs, SlabOK s)
    (t : ℚ) : (runSlabs t slabs).1 = slabIntegral t slabs := by
  rw [runSlabs_fst]
  unfold slabIntegral
  congr 1
  exact List.map_congr_left fun s hm => contrib_eq_integral_term (hs s hm) t

lemma runSlabs_nonpos {slabs : List Slab} (hs : ∀ s ∈ slabs, SlabOK s)
    {t : ℚ} (ht : t ≤ 0) : runSlabs t slabs = (0, []) := by
  unfold runSlabs
  induction slabs with
  | nil => rfl
  | cons s rest ih =>
    have hguard : ¬ s.lo < t :=
      not_lt.mpr (le_trans ht (hs s (List.mem_cons_self s rest)).2.1)
    simp only [List.foldl_cons]
    rw [show slabStep t (0, []) s = (0, []) by unfold slabStep; rw [if_neg hguard]]
    exact ih fun s' hs' => hs s' (List.mem_cons_of_mem _ hs')

lemma taxableOf_new (income : ℚ) (d : TaxScenario) :
    taxableOf income d true = income - 75000 := by
  simp [taxableOf, resolveDeductions, totalDeductions]

lemma taxableOf_old (income : ℚ) (d : TaxScenario) :
    taxableOf income d false =
      income - (min d.section80C 150000 + min d.section80D 25000
        + min d.hra (income * (5/10)) + 50000
        + (d.homeLoanInterest + d.otherDeductions)) := by
  simp [taxableOf, resolveDeductions, totalDeductions]

lemma taxableOf_mono (d : TaxScenario) (b : Bool) {i₁ i₂ : ℚ} (h : i₁ ≤ i₂) :
    taxableOf i₁ d b ≤ taxableOf i₂ d b := by
  cases b with
  | true =>
    rw [taxableOf_new, taxableOf_new]
    linarith
  | false =>
    rw [taxableOf_old, taxableOf_old]
    rcases le_total d.hra (i₁ * (5/10)) with h₁ | h₁ <;>
      rcases le_total d.hra (i₂ * (5/10)) with h₂ | h₂
    · rw [min_eq_left h₁, min_eq_left h₂]; linarith
    · rw [min_eq_left h₁, min_eq_right h₂]; linarith
    · rw [min_eq_right h₁, min_eq_left h₂]; linarith
    · rw [min_eq_right h₁, min_eq_right h₂]; linarith

lemma calculateTax_taxLiability_eq (income : ℚ) (d : TaxScenario) (b : Bool) :
    (calculateTax income d b).taxLiability = round (totalTaxOf income d b) := rfl

lemma calculateTax_taxableIncome_eq (income : ℚ) (d : TaxScenario) (b : Bool) :
    (calculateTax income d b).taxableIncome = round (taxableOf income d b) := rfl

lemma calculateTax_taxBreakdown_eq (income : ℚ) (d : TaxScenario) (b : Bool) :
    (calculateTax income d b).taxBreakdown
      = (runSlabs (taxableOf income d b) (slabTable b)).2 := rfl

/-- A scenario with a negative hra field, on which the source still runs the
whole computation. -/
def negScenario : TaxScenario := ⟨100000, -5000, 0, 0, 0, 0⟩

/-- The all-zero scenario; both regimes give liability 0, an exact tie. -/
def zeroScenario : TaxScenario := ⟨0, 0, 0, 0, 0, 0⟩

/-- A scenario agreeing with the default one on income only. -/
def altScenario : TaxScenario := ⟨1200000, 0, 999, 3, 7, 11⟩

/-- The cap-probing scenario of the spec: oversized 80C, 80D and hra. -/
def capScenario : TaxScenario := ⟨1000000, 800000, 999999, 999999, 0, 0⟩

/-- C1: on the default scenario (income 1200000, hra 120000, 80C 150000,
80D 25000, home-loan interest 200000, other 50000) the old regime has
taxable income 605000 and rounded liability 34840, the new regime has
taxable income 1125000 and rounded liability 71500, the recommended regime
is the old one, and the absolute saving is 36660. -/
theorem default_scenario_end_to_end :
    (calculateTax 1200000 defaultScenario false).taxableIncome = 605000 ∧
    (calculateTax 1200000 defaultScenario false).taxLiability = 34840 ∧
    (calculateTax 1200000 defaultScenario true).taxableIncome = 1125000 ∧
    (calculateTax 1200000 defaultScenario true).taxLiability = 71500 ∧
    (recommendedRegime defaultScenario).map (·.regime) = some "Old Tax Regime" ∧
    totalSavings defaultScenario = 36660 := by
  refine ⟨?_, ?_, ?_, ?_, ?_, ?_⟩ <;>
    norm_num [calculateTax, resolveDeductions, totalDeductions, defaultScenario,
      slabTable, runSlabs, oldSlabs, newSlabs, slabStep, slabTax,
      recommendedRegime, regimeData, List.find?, totalSavings]

/-- C2 counterexample: on a scenario whose hra is -5000 the calculation does
not fail; the deduction computation runs and passes the negative value
through into the breakdown, and a full result is returned. -/
theorem no_validation_on_negative_input :
    (calculateTax 100000 negScenario false).deductions.hra = -5000 ∧
    (calculateTax 100000 negScenario false).taxLiability = 0 := by
  constructor <;>
    norm_num [calculateTax, resolveDeductions, totalDeductions, negScenario,
      slabTable, runSlabs, oldSlabs, slabStep, slabTax]

/-- C2 (amended): calculateTax performs no input validation at all; it is a
total function and resolves the deductions from the raw field values, so a
negative hra not exceeding half the income reaches the breakdown unclamped
(it is neither rejected nor replaced by 0). -/
theorem negative_hra_flows_through (income : ℚ) (d : TaxScenario)
    (h : d.hra ≤ income * (5/10)) :
    (calculateTax income d false).deductions.hra = d.hra := by
  simp [calculateTax, resolveDeductions, min_eq_left h]

/-- Witness for the amended C2 at income 100000 and hra -5000. -/
theorem negative_hra_flows_through_witness :
    negScenario.hra ≤ (100000 : ℚ) * (5/10) ∧
    (calculateTax 100000 negScenario false).deductions.hra = negScenario.hra :=
  ⟨by norm_num [negScenario],
   negative_hra_flows_through 100000 negScenario (by norm_num [negScenario])⟩

/-- C3 counterexample: with income 0 the new regime reports taxableIncome
-75000, a negative value, so the reported taxable income is not floored at
0 and is not max(0, income - 75000). -/
theorem taxable_income_goes_negative :
    (calculateTax 0 zeroScenario true).taxableIncome = -75000 ∧
    ((-75000 : ℤ) < 0) := by
  constructor
  · norm_num [calculateTax, resolveDeductions, totalDeductions, zeroScenario,
      slabTable, runSlabs, newSlabs, slabStep, slabTax, round_eq]
  · norm_num

/-- C3 (amended): the taxableIncome reported by calculateTax is the rounded
raw difference of income and deductions, with no floor at 0: the new regime
reports round(income - 75000) and the old regime reports round of income
minus the five resolved deduction categories. -/
theorem taxable_income_unfloored (income : ℚ) (d : TaxScenario) :
    (calculateTax income d true).taxableIncome = round (income - 75000) ∧
    (calculateTax income d false).taxableIncome =
      round (income - (min d.section80C 150000 + min d.section80D 25000
        + min d.hra (income * (5/10)) + 50000
        + (d.homeLoanInterest + d.otherDeductions))) := by
  constructor
  · rw [calculateTax_taxableIncome_eq, taxableOf_new]
  · rw [calculateTax_taxableIncome_eq, taxableOf_old]

/-- C4 counterexample: with income 0 the effectiveRate is the non-finite
JavaScript value (modelled as none), not 0; and on the default scenario the
old-regime effectiveRate is not the rounded liability divided by income
(the source divides the unrounded tax and multiplies by 100). -/
theorem effective_rate_not_as_claimed :
    (calculateTax 0 zeroScenario false).effectiveRate ≠ some 0 ∧
    (calculateTax 1200000 defaultScenario false).effectiveRate ≠
      some (34840 / 1200000) := by
  constructor
  · intro hcon
    rw [show (calculateTax 0 zeroScenario false).effectiveRate = none by
      norm_num [calculateTax, zeroScenario]] at hcon
    exact Option.noConfusion hcon
  · norm_num [calculateTax, resolveDeductions, totalDeductions,
      defaultScenario, slabTable, runSlabs, oldSlabs, slabStep, slabTax]

/-- C4 (amended): with income 0 the calculator raises no error but returns
the non-finite effectiveRate (none); with income nonzero it returns the
unrounded total tax divided by income times 100 (a percentage), not the
rounded liability divided by income. -/
theorem effective_rate_formula (income : ℚ) (d : TaxScenario) (b : Bool) :
    (income = 0 → (calculateTax income d b).effectiveRate = none) ∧
    (income ≠ 0 → (calculateTax income d b).effectiveRate =
      some (totalTaxOf income d b / income * 100)) := by
  constructor <;> intro h <;>
    simp [calculateTax, totalTaxOf, taxableOf, slabTable, h]

/-- Witness for the amended C4 at income 0 and at income 1200000. -/
theorem effective_rate_formula_witness :
    (calculateTax 0 zeroScenario true).effectiveRate = none ∧
    (calculateTax 1200000 defaultScenario true).effectiveRate =
      some (totalTaxOf 1200000 defaultScenario true / 1200000 * 100) :=
  ⟨(effective_rate_formula 0 zeroScenario true).1 rfl,
   (effective_rate_formula 1200000 defaultScenario true).2 (by norm_num)⟩

/-- C5 counterexample: on the all-zero scenario the two liabilities are
exactly equal (both 0), yet no regime is designated: neither regimeData
entry is recommended and recommendedRegime is none. -/
theorem tie_leaves_no_recommendation :
    (calculateTax zeroScenario.income zeroScenario false).taxLiability
      = (calculateTax zeroScenario.income zeroScenario true).taxLiability ∧
    recommendedRegime zeroScenario = none := by
  constructor <;>
    norm_num [calculateTax, resolveDeductions, totalDeductions, zeroScenario,
      slabTable, runSlabs, oldSlabs, newSlabs, slabStep, slabTax,
      recommendedRegime, regimeData, List.find?]

/-- C5 (amended): whenever the two regimes have exactly equal rounded
liabilities, both recommended flags are false, so the comparator
deterministically resolves to no recommended regime (none) rather than to
one of the two documented regimes. -/
theorem tie_yields_none (s : TaxScenario)
    (h : (calculateTax s.income s false).taxLiability
        = (calculateTax s.income s true).taxLiability) :
    recommendedRegime s = none := by
  simp [recommendedRegime, regimeData, List.find?, h]

/-- Witness for the amended C5 on the all-zero scenario. -/
theorem tie_yields_none_witness : recommendedRegime zeroScenario = none :=
  tie_yields_none zeroScenario (by
    norm_num [calculateTax, resolveDeductions, totalDeductions, zeroScenario,
      slabTable, runSlabs, oldSlabs, newSlabs, slabStep, slabTax])

/-- C6: two scenarios with the same income produce identical New Regime
results in every field, since the new-regime branch reads no deduction
field of the scenario: only the income and the fixed 75000 standard
deduction enter the computation. -/
theorem new_regime_invariance (s₁ s₂ : TaxScenario) (h : s₁.income = s₂.income) :
    calculateTax s₁.income s₁ true = calculateTax s₂.income s₂ true := by
  rw [h]
  rfl

/-- Witness for C6 on two scenarios sharing income 1200000 but differing in
every deduction field. -/
theorem new_regime_invariance_witness :
    defaultScenario.income = altScenario.income ∧
    calculateTax defaultScenario.income defaultScenario true
      = calculateTax altScenario.income altScenario true :=
  ⟨rfl, new_regime_invariance defaultScenario altScenario rfl⟩

/-- C7: for fixed deduction fields, the rounded total liability is
non-decreasing in income, in both regimes (in the old regime the hra cap of
half the income grows with income, but never faster than the income). -/
theorem liability_monotone_in_income (d : TaxScenario) (b : Bool)
    (i₁ i₂ : ℚ) (h : i₁ ≤ i₂) :
    (calculateTax i₁ d b).taxLiability ≤ (calculateTax i₂ d b).taxLiability := by
  rw [calculateTax_taxLiability_eq, calculateTax_taxLiability_eq]
  apply round_mono_q
  have htax := runSlabs_fst_mono (slabTable_ok b) (taxableOf_mono d b h)
  unfold totalTaxOf
  linarith

/-- Witness for C7 with incomes 500000 and 1200000 in the old regime. -/
theorem liability_monotone_in_income_witness :
    (500000 : ℚ) ≤ 1200000 ∧
    (calculateTax 500000 defaultScenario false).taxLiability
      ≤ (calculateTax 1200000 defaultScenario false).taxLiability :=
  ⟨by norm_num,
   liability_monotone_in_income defaultScenario false 500000 1200000 (by norm_num)⟩

/-- C8: the old-regime deduction breakdown caps 80C at 150000, 80D at
25000 and hra at half the income, fixes standardDeduction at 50000 and
leaves other = homeLoanInterest + otherDeductions uncapped; in particular
the cap-probing scenario resolves 80C to 150000, 80D to 25000 and, at
income 1000000 with hra 800000, hra to 500000. -/
theorem old_regime_deduction_resolution (income : ℚ) (d : TaxScenario) :
    ((calculateTax income d false).deductions.section80C
        = min d.section80C 150000 ∧
     (calculateTax income d false).deductions.section80D
        = min d.section80D 25000 ∧
     (calculateTax income d false).deductions.hra
        = min d.hra (income * (5/10)) ∧
     (calculateTax income d false).deductions.standardDeduction = 50000 ∧
     (calculateTax income d false).deductions.other
        = d.homeLoanInterest + d.otherDeductions) ∧
    (calculateTax 1000000 capScenario false).deductions.section80C = 150000 ∧
    (calculateTax 1000000 capScenario false).deductions.section80D = 25000 ∧
    (calculateTax 1000000 capScenario false).deductions.hra = 500000 := by
  refine ⟨⟨rfl, rfl, rfl, rfl, rfl⟩, ?_, ?_, ?_⟩ <;>
    norm_num [calculateTax, resolveDeductions, capScenario]

/-- C9: for any non-negative taxable income and both slab tables, the sum
of the taxes listed in the breakdown equals the pre-cess loop total
(omitted slabs contribute exactly 0), and that total equals the marginal
integration of the slab schedule up to the taxable income. -/
theorem slab_sum_and_integral (t : ℚ) (_ht : 0 ≤ t) :
    ((((runSlabs t oldSlabs).2).map SlabContribution.tax).sum
        = (runSlabs t oldSlabs).1 ∧
      (runSlabs t oldSlabs).1 = slabIntegral t oldSlabs) ∧
    ((((runSlabs t newSlabs).2).map SlabContribution.tax).sum
        = (runSlabs t newSlabs).1 ∧
      (runSlabs t newSlabs).1 = slabIntegral t newSlabs) :=
  ⟨⟨runSlabs_snd_sum oldSlabs_ok t, runSlabs_fst_eq_integral oldSlabs_ok t⟩,
   ⟨runSlabs_snd_sum newSlabs_ok t, runSlabs_fst_eq_integral newSlabs_ok t⟩⟩

/-- Witness for C9 at taxable income 605000. -/
theorem slab_sum_and_integral_witness :
    (0 : ℚ) ≤ 605000 ∧
    (((((runSlabs (605000 : ℚ) oldSlabs).2).map SlabContribution.tax).sum
        = (runSlabs (605000 : ℚ) oldSlabs).1 ∧
      (runSlabs (605000 : ℚ) oldSlabs).1 = slabIntegral 605000 oldSlabs) ∧
     ((((runSlabs (605000 : ℚ) newSlabs).2).map SlabContribution.tax).sum
        = (runSlabs (605000 : ℚ) newSlabs).1 ∧
      (runSlabs (605000 : ℚ) newSlabs).1 = slabIntegral 605000 newSlabs)) :=
  ⟨by norm_num, slab_sum_and_integral 605000 (by norm_num)⟩

/-- C10: the rounded liability is never negative, and whenever the raw
taxable income is zero or negative every slab guard fails, so the pre-cess
tax is 0, the breakdown is empty and the rounded liability is 0. -/
theorem nonpositive_taxable_means_zero (income : ℚ) (d : TaxScenario) (b : Bool) :
    0 ≤ (calculateTax income d b).taxLiability ∧
    (taxableOf income d b ≤ 0 →
      (runSlabs (taxableOf income d b) (slabTable b)).1 = 0 ∧
      (calculateTax income d b).taxBreakdown = [] ∧
      (calculateTax income d b).taxLiability = 0) := by
  constructor
  · rw [calculateTax_taxLiability_eq]
    have htax := runSlabs_fst_nonneg (slabTable_ok b) (taxableOf income d b)
    calc (0 : ℤ) = round (0 : ℚ) := round_zero.symm
    _ ≤ round (totalTaxOf income d b) :=
      round_mono_q (by unfold totalTaxOf; linarith)
  · intro hle
    have hz := runSlabs_nonpos (slabTable_ok b) hle
    refine ⟨by rw [hz], ?_, ?_⟩
    · rw [calculateTax_taxBreakdown_eq, hz]
    · rw [calculateTax_taxLiability_eq]
      unfold totalTaxOf
      rw [hz]
      norm_num

/-- Witness for C10 at income 50000 in the new regime, where the raw
taxable income is -25000. -/
theorem nonpositive_taxable_means_zero_witness :
    taxableOf 50000 zeroScenario true ≤ 0 ∧
    0 ≤ (calculateTax 50000 zeroScenario true).taxLiability ∧
    (runSlabs (taxableOf 50000 zeroScenario true) (slabTable true)).1 = 0 ∧
    (calculateTax 50000 zeroScenario true).taxBreakdown = [] ∧
    (calculateTax 50000 zeroScenario true).taxLiability = 0 := by
  have hle : taxableOf 50000 zeroScenario true ≤ 0 := by
    norm_num [taxableOf, resolveDeductions, totalDeductions, zeroScenario]
  obtain ⟨h₁, h₂⟩ := nonpositive_taxable_means_zero 50000 zeroScenario true
  obtain ⟨ha, hb, hc⟩ := h₂ hle
  exact ⟨hle, h₁, ha, hb, hc⟩
